import Mathlib

/-
Verification of the AI-content generation layer of the svai frontend:
the retry/backoff wrapper, the deterministic fallback selector, and the
per-operation error handling of src/services/geminiService.ts,
src/services/mistralDirectService.ts and the server-side Mistral module.

JavaScript strings are modelled as Lean strings, JavaScript numbers on the
data paths as Int (all relevant values are small integers) and the
Math.random draws and backoff delays as rationals.  The in-place shuffle
`[...xs].sort(() => Math.random() - 0.5)` is modelled by an explicit
function argument standing for the permutation the engine produces, and
Math.random by an explicit draw sequence.
-/

/-- A multiple-choice quiz question as handled by the quiz paths of
src/services/geminiService.ts: question text, an optional code snippet,
the answer options and the zero-based index of the correct option. -/
structure QuizQuestion where
  question : String
  codeSnippet : Option String
  options : List String
  correctAnswerIndex : Int
deriving DecidableEq

/-- A learning-roadmap step in the decoded RoadmapItem shape used by the
roadmap generation paths. -/
structure RoadmapItem where
  step : Int
  title : String
  description : String
  duration : String
  resources : List String
deriving DecidableEq

/-- Contiguous-occurrence test on character lists, the semantics of
JavaScript String.prototype.includes. -/
def hasInfix (sub : List Char) : List Char → Bool
  | [] => sub.isEmpty
  | c :: rest => sub.isPrefixOf (c :: rest) || hasInfix sub rest

/-- JavaScript `s.includes(sub)`: true when `sub` occurs contiguously in `s`. -/
def jsIncludes (s sub : String) : Bool := hasInfix sub.toList s.toList

/-- JavaScript `s.toLowerCase()` in the per-character ASCII form relevant to
this code base: Char.toLower mapped over the characters (the same function as
String.toLower, phrased on the character list so that terms reduce). -/
def jsToLower (s : String) : String := String.mk (s.toList.map Char.toLower)

/-- JavaScript object/Record access by key, on an association list kept in
object-key insertion order; none models an undefined property. -/
def listLookup {α : Type} (key : String) : List (String × α) → Option α
  | [] => none
  | (k, v) :: rest => if k = key then some v else listLookup key rest

/-- `s.charAt(0).toUpperCase() + s.slice(1)` from generateRandomQuestions. -/
def jsCapitalize (s : String) : String :=
  match s.toList with
  | [] => ""
  | c :: rest => String.mk (c.toUpper :: rest)

instance {ε α : Type} [DecidableEq ε] [DecidableEq α] : DecidableEq (Except ε α)
  | .ok x, .ok y =>
    if h : x = y then .isTrue (h ▸ rfl) else .isFalse fun hh => h (by cases hh; rfl)
  | .ok _, .error _ => .isFalse fun hh => Except.noConfusion hh
  | .error _, .ok _ => .isFalse fun hh => Except.noConfusion hh
  | .error e, .error f =>
    if h : e = f then .isTrue (h ▸ rfl) else .isFalse fun hh => h (by cases hh; rfl)
/-- The static fallback quiz stored under key "java" in the fallbackQuizzes record
(src/services/geminiService.ts). -/
def javaQuiz : List QuizQuestion := [
  ⟨"What is the output of this Java code considering method overriding and polymorphism?",
   some "class Parent \x7b\n    void print() \x7b System.out.println(\"Parent\"); \x7d\n\x7d\nclass Child extends Parent \x7b\n    void print() \x7b System.out.println(\"Child\"); \x7d\n\x7d\nParent p = new Child();\np.print();",
   ["Parent", "Child", "Compilation error", "Runtime exception"], 1⟩,
  ⟨"How does this Java code handle memory management and garbage collection?",
   some "public class MemoryTest \x7b\n    public static void main(String[] args) \x7b\n        List<String> list = new ArrayList<>();\n        for (int i = 0; i < 1000000; i++) \x7b\n            list.add(new String(\"Object \" + i));\n        \x7d\n        list.clear();\n        System.gc();\n    \x7d\n\x7d",
   ["Objects are immediately eligible for GC", "Objects remain until GC runs", "Memory leak occurs", "OutOfMemoryError thrown"], 1⟩,
  ⟨"What happens with this Java concurrent programming scenario?",
   some "class Counter \x7b\n    private int count = 0;\n    public synchronized void increment() \x7b count++; \x7d\n    public int getCount() \x7b return count; \x7d\n\x7d\n// Multiple threads call increment() simultaneously",
   ["Race condition occurs", "Count is thread-safe", "Deadlock occurs", "Compilation error"], 1⟩,
  ⟨"How does this Java generics code behave with type erasure?",
   some "public class Generic<T> \x7b\n    public void printType(T obj) \x7b\n        System.out.println(obj.getClass().getSimpleName());\n    \x7d\n\x7d\nGeneric<String> g1 = new Generic<>();\nGeneric<Integer> g2 = new Generic<>();\nSystem.out.println(g1.getClass() == g2.getClass());",
   ["true", "false", "Compilation error", "Runtime exception"], 0⟩,
  ⟨"What is the effect of this Java Stream API operation?",
   some "List<Integer> numbers = Arrays.asList(1, 2, 3, 4, 5);\nint result = numbers.stream()\n    .filter(n -> n % 2 == 0)\n    .mapToInt(Integer::intValue)\n    .sum();\nSystem.out.println(result);",
   ["6", "9", "15", "0"], 0⟩
]

/-- The static fallback quiz stored under key "javascript" in the fallbackQuizzes record
(src/services/geminiService.ts). -/
def javascriptQuiz : List QuizQuestion := [
  ⟨"What is the output of this code considering the event loop and microtasks?",
   some "Promise.resolve().then(() => console.log(1));\nsetTimeout(() => console.log(2), 0);\nPromise.resolve().then(() => console.log(3));\nconsole.log(4);",
   ["4, 1, 3, 2", "1, 3, 4, 2", "4, 2, 1, 3", "2, 4, 1, 3"], 0⟩,
  ⟨"Which approach prevents memory leaks in this closure scenario?",
   some "function createHandler() \x7b\n  const data = new Array(1000000).fill(\x27x\x27);\n  return () => console.log(data.length);\n\x7d\nconst handler = createHandler();\n// How to prevent memory leak?",
   ["Set data = null after use", "Use WeakMap instead", "Return function without closure", "Use setTimeout to clear data"], 0⟩,
  ⟨"What happens with async/await and Promise.all in this race condition?",
   some "async function race() \x7b\n  const p1 = new Promise(r => setTimeout(() => r(1), 100));\n  const p2 = Promise.reject(2);\n  try \x7b\n    const result = await Promise.all([p1, p2]);\n  \x7d catch(e) \x7b console.log(e); \x7d\n\x7d",
   ["Logs 2 immediately", "Logs 1 after 100ms", "Never logs anything", "Throws TypeError"], 0⟩,
  ⟨"How does this Proxy implementation affect object property access?",
   some "const handler = \x7b\n  get(target, prop) \x7b\n    return prop in target ? target[prop] : \x27default\x27;\n  \x7d,\n  set(target, prop, value) \x7b\n    target[prop] = value * 2;\n  \x7d\n\x7d;\nconst obj = new Proxy(\x7b\x7d, handler);\nobj.x = 5;\nconsole.log(obj.x, obj.y);",
   ["10, \x27default\x27", "5, \x27default\x27", "10, undefined", "5, undefined"], 0⟩,
  ⟨"What is the result of this complex destructuring with default values?",
   some "const \x7ba = 1, b: \x7bc = 2\x7d = \x7b\x7d, d = 3\x7d = \x7ba: undefined, b: \x7bc: undefined\x7d\x7d;\nconsole.log(a, c, d);",
   ["1, 2, 3", "undefined, undefined, 3", "1, undefined, 3", "undefined, 2, 3"], 0⟩
]

/-- The static fallback quiz stored under key "react" in the fallbackQuizzes record
(src/services/geminiService.ts). -/
def reactQuiz : List QuizQuestion := [
  ⟨"Which optimization prevents re-renders in this component hierarchy?",
   some "const Parent = (\x7bitems\x7d) => \x7b\n  const [count, setCount] = useState(0);\n  return <Child data=\x7bitems\x7d onClick=\x7b() => setCount(c => c + 1)\x7d />;\n\x7d;\n// Child re-renders on every count change. How to prevent?",
   ["useCallback for onClick", "React.memo for Child", "useMemo for items", "Both useCallback and React.memo"], 3⟩,
  ⟨"What is the render output of this context provider with multiple consumers?",
   some "const ThemeContext = createContext(\x27light\x27);\nconst App = () => (\n  <ThemeContext.Provider value=\x27dark\x27>\n    <ThemeContext.Provider value=\x27light\x27>\n      <Consumer />\n    </ThemeContext.Provider>\n  </ThemeContext.Provider>\n);",
   ["\x27light\x27 (nearest provider)", "\x27dark\x27 (outer provider)", "Throws error", "undefined"], 0⟩,
  ⟨"How does this useEffect dependency array affect the cleanup timing?",
   some "useEffect(() => \x7b\n  console.log(\x27effect\x27);\n  return () => console.log(\x27cleanup\x27);\n\x7d, [props.data]);\n// When does cleanup run?",
   ["Before next effect and unmount", "Only on unmount", "After next effect", "Never"], 0⟩,
  ⟨"What is the state update behavior in this concurrent rendering scenario?",
   some "function Counter() \x7b\n  const [count, setCount] = useState(0);\n  const handleClick = () => \x7b\n    setCount(c => c + 1);\n    setCount(c => c + 1);\n    setCount(2);\n  \x7d;\n  return <button onClick=\x7bhandleClick\x7d>\x7bcount\x7d</button>;\n\x7d",
   ["Renders once with count=2", "Renders twice: 1 then 2", "Renders three times: 1, 2, 2", "Throws error"], 0⟩,
  ⟨"How does this ref forwarding pattern affect component behavior?",
   some "const FancyInput = React.forwardRef((props, ref) => \x7b\n  const inputRef = useRef();\n  useImperativeHandle(ref, () => (\x7b\n    focus: () => inputRef.current.focus(),\n    value: () => inputRef.current.value\n  \x7d));\n  return <input ref=\x7binputRef\x7d \x7b...props\x7d />;\n\x7d);",
   ["Only focus and value methods exposed", "All input methods available", "Ref is null", "Throws error"], 0⟩
]

/-- The static fallback quiz stored under key "python" in the fallbackQuizzes record
(src/services/geminiService.ts). -/
def pythonQuiz : List QuizQuestion := [
  ⟨"What is the method resolution order (MRO) for this complex inheritance?",
   some "class A: pass\nclass B(A): pass\nclass C(A): pass\nclass D(B, C): pass\nprint(D.__mro__)",
   ["(D, B, C, A, object)", "(D, B, A, C, object)", "(D, C, B, A, object)", "(D, A, B, C, object)"], 0⟩,
  ⟨"How does this generator with context manager behave?",
   some "from contextlib import contextmanager\n@contextmanager\ndef cm():\n  print(\x27enter\x27)\n  yield\n  print(\x27exit\x27)\ndef gen():\n  with cm():\n    yield 1\n    yield 2\ng = gen()\nprint(next(g))\nprint(next(g))",
   ["enter, 1, 2, exit", "enter, 1, exit, 2", "1, 2, enter, exit", "enter, exit, 1, 2"], 0⟩,
  ⟨"What is the result of this metaclass manipulation?",
   some "class Meta(type):\n  def __new__(cls, name, bases, attrs):\n    attrs[\x27x\x27] = 42\n    return super().__new__(cls, name, bases, attrs)\nclass Test(metaclass=Meta):\n  pass\nprint(hasattr(Test, \x27x\x27), hasattr(Test(), \x27x\x27))",
   ["True, True", "True, False", "False, True", "False, False"], 1⟩,
  ⟨"How does this descriptor protocol implementation work?",
   some "class Descriptor:\n  def __get__(self, obj, cls=None):\n    if obj is None:\n      return self\n    return obj.__dict__[self.name]\n  def __set_name__(self, cls, name):\n    self.name = name\nclass Test:\n  x = Descriptor()",
   ["Raises AttributeError on access", "Works as property", "Returns descriptor instance", "Infinite loop"], 0⟩,
  ⟨"What is the output of this asyncio event loop with cancellation?",
   some "async def task():\n  try:\n    await asyncio.sleep(1)\n    return \x27done\x27\n  except asyncio.CancelledError:\n    return \x27cancelled\x27\nasync def main():\n  t = asyncio.create_task(task())\n  await asyncio.sleep(0.1)\n  t.cancel()\n  return await t",
   ["\x27cancelled\x27", "\x27done\x27", "Raises CancelledError", "None"], 0⟩
]

/-- The static fallback quiz stored under key "html" in the fallbackQuizzes record
(src/services/geminiService.ts). -/
def htmlQuiz : List QuizQuestion := [
  ⟨"Which semantic HTML structure provides the best accessibility for this complex layout?",
   some "<header>\n  <nav aria-label=\x27main\x27>\n    <ul><li><a href=\x27/\x27>Home</a></li></ul>\n  </nav>\n</header>\n<main>\n  <article>\n    <section aria-labelledby=\x27title\x27>\n      <h2 id=\x27title\x27>Article Title</h2>\n    </section>\n  </article>\n  <aside aria-label=\x27sidebar\x27></aside>\n</main>",
   ["Current structure is optimal", "Use <div> instead of semantic tags", "Remove aria-labels", "Add role=\x27application\x27"], 0⟩,
  ⟨"How does this custom element with shadow DOM behave?",
   some "class CustomEl extends HTMLElement \x7b\n  connectedCallback() \x7b\n    this.attachShadow(\x7bmode: \x27open\x27\x7d);\n    this.shadowRoot.innerHTML = \x60<slot></slot>\x60;\n  \x7d\n\x7d\ncustomElements.define(\x27custom-el\x27, CustomEl);\n// What happens with light DOM?",
   ["Light DOM renders in slot", "Light DOM is hidden", "Throws error", "Requires named slot"], 0⟩,
  ⟨"What is the security implication of this content security policy?",
   some "Content-Security-Policy: default-src \x27self\x27; script-src \x27self\x27 \x27unsafe-inline\x27; style-src \x27self\x27 \x27unsafe-inline\x27;",
   ["\x27unsafe-inline\x27 reduces security", "Too restrictive", "Missing object-src", "Should use nonce"], 0⟩,
  ⟨"How does this form validation pattern work with constraint API?",
   some "<form id=\x27form\x27>\n  <input type=\x27email\x27 required pattern=\x27[a-z]+@[a-z]+\\.[a-z]+\x27>\n  <input type=\x27submit\x27>\n</form>\n<script>\nform.addEventListener(\x27submit\x27, e => \x7b\n  if (!form.checkValidity()) e.preventDefault();\n\x7d);\n</script>",
   ["Prevents invalid submission", "Always prevents submission", "No validation occurs", "Validates on blur only"], 0⟩,
  ⟨"What is the rendering behavior of this complex table structure?",
   some "<table>\n  <thead>\n    <tr>\n      <th colspan=\x272\x27>Header</th>\n    </tr>\n  </thead>\n  <tbody>\n    <tr>\n      <td rowspan=\x272\x27>Cell 1</td>\n      <td>Cell 2</td>\n    </tr>\n    <tr>\n      <td>Cell 3</td>\n    </tr>\n  </tbody>\n</table>",
   ["2x2 grid with merged cells", "Invalid HTML structure", "3x2 grid", "Renders as separate tables"], 0⟩
]

/-- The static fallback quiz stored under key "css" in the fallbackQuizzes record
(src/services/geminiService.ts). -/
def cssQuiz : List QuizQuestion := [
  ⟨"Which layout algorithm provides best performance for this animation scenario?",
   some ".container \x7b\n  /* 1000 animated children */\n  width: 1000px;\n  height: 1000px;\n\x7d\n.child \x7b\n  width: 10px;\n  height: 10px;\n  transform: translate(var(--x), var(--y));\n  will-change: transform;\n\x7d",
   ["CSS Grid with transform", "Flexbox with transform", "Absolute positioning with transform", "CSS custom properties"], 2⟩,
  ⟨"How does this CSS containment strategy affect rendering?",
   some ".card \x7b\n  contain: layout style paint;\n  overflow: hidden;\n\x7d\n.card:hover \x7b\n  transform: scale(1.05);\n  transition: transform 0.3s;\n\x7d",
   ["Optimizes repaints and reflows", "Prevents transform animation", "Triggers layout recalculation", "No effect on performance"], 0⟩,
  ⟨"What is the specificity calculation for this selector combination?",
   some "#app .container > div.item[data-type=\x27primary\x27]:not(.disabled)::before",
   ["(1, 3, 1, 1)", "(1, 2, 2, 1)", "(0, 3, 2, 1)", "(1, 3, 0, 2)"], 0⟩,
  ⟨"How does this CSS custom property cascade with fallbacks?",
   some ":root \x7b --color: blue; \x7d\n.parent \x7b --color: red; \x7d\n.child \x7b color: var(--color, var(--fallback, green)); \x7d",
   ["red (parent overrides)", "blue (root value)", "green (fallback)", "invalid CSS"], 0⟩,
  ⟨"What is the stacking context order in this complex z-index scenario?",
   some ".a \x7b position: relative; z-index: 1; \x7d\n.b \x7b position: absolute; z-index: 2; \x7d\n.c \x7b position: relative; z-index: 1; transform: translateZ(0); \x7d\n.d \x7b position: sticky; z-index: 3; \x7d",
   ["d, b, c, a", "d, c, b, a", "b, d, c, a", "d, b, a, c"], 2⟩
]

/-- The fallbackQuizzes record of src/services/geminiService.ts, as an association
list in JavaScript object-key insertion order. -/
def fallbackQuizzes : List (String × List QuizQuestion) := [
  ("java", javaQuiz),
  ("javascript", javascriptQuiz),
  ("react", reactQuiz),
  ("python", pythonQuiz),
  ("html", htmlQuiz),
  ("css", cssQuiz)
]

/-- The skillMatches record of src/services/geminiService.ts: canonical quiz keys
paired with their keyword aliases, in object-key insertion order. -/
def skillMatches : List (String × List String) := [
  ("java", ["java", "spring", "jvm", "maven", "gradle"]),
  ("javascript", ["javascript", "js", "ecmascript", "es6"]),
  ("react", ["react", "reactjs", "react.js", "jsx"]),
  ("python", ["python", "py", "django", "flask"]),
  ("html", ["html", "html5", "markup", "hypertext"]),
  ("css", ["css", "css3", "stylesheet", "styling"]),
  ("typescript", ["typescript", "ts", "tsx"]),
  ("vue", ["vue", "vuejs", "vue.js"]),
  ("angular", ["angular", "ng", "angularjs"]),
  ("c++", ["c++", "cpp", "cplusplus"]),
  ("c#", ["c#", "csharp", ".net"]),
  ("sql", ["sql", "database", "mysql", "postgresql"]),
  ("git", ["git", "github", "gitlab", "version control"]),
  ("docker", ["docker", "container", "kubernetes", "k8s"]),
  ("aws", ["aws", "amazon", "cloud", "lambda"]),
  ("node", ["node", "nodejs", "node.js", "backend"])
]

/-- The domains record of generateRandomQuestions (src/services/geminiService.ts):
domain names paired with their keyword lists, in insertion order; general has no
keywords and acts as the default. -/
def domains : List (String × List String) := [
  ("technical", ["code", "programming", "software", "development", "algorithm", "data", "system", "network", "security", "database"]),
  ("creative", ["design", "art", "music", "writing", "content", "creative", "visual", "media"]),
  ("business", ["management", "marketing", "sales", "finance", "strategy", "leadership", "project", "business"]),
  ("science", ["research", "analysis", "experiment", "theory", "scientific", "study", "method"]),
  ("general", [])
]

/-- The technical entry of the questionTemplates record in generateRandomQuestions
(src/services/geminiService.ts); question text interpolates the skill name. -/
def technicalTemplates (skillName : String) : List QuizQuestion := [
  ⟨("What is the most critical performance consideration when working with " ++ skillName ++ "?"),
   some ("// " ++ skillName ++ " performance analysis\nconst factors = \x7b\n  speed: \x27Execution efficiency\x27,\n  memory: \x27Resource usage\x27,\n  scalability: \x27Growth capability\x27,\n  reliability: \x27System stability\x27\n\x7d;\n// Which factor impacts " ++ skillName ++ " most?"),
   ["Execution speed", "Memory efficiency", "Scalability", "Reliability"], 2⟩,
  ⟨("How would you optimize this " ++ skillName ++ " implementation for production use?"),
   some ("// " ++ skillName ++ " optimization scenario\nfunction process" ++ jsCapitalize skillName ++ "(data) \x7b\n  // Implementation details\n  return transform(data);\n\x7d\n// Best optimization approach?"),
   ["Caching", "Parallel processing", "Code refactoring", "Algorithm improvement"], 1⟩,
  ⟨("What security considerations are most important for " ++ skillName ++ " applications?"),
   some ("// " ++ skillName ++ " security assessment\nconst concerns = \x7b\n  data: \x27Information protection\x27,\n  access: \x27Control mechanisms\x27,\n  integrity: \x27Data validation\x27,\n  availability: \x27System uptime\x27\n\x7d;\n// Priority for " ++ skillName ++ "?"),
   ["Data protection", "Access control", "Data integrity", "System availability"], 0⟩,
  ⟨("Which architectural pattern best suits " ++ skillName ++ " development?"),
   some ("// " ++ skillName ++ " architecture options\nconst patterns = \x7b\n  monolithic: \x27Single unit\x27,\n  modular: \x27Separated components\x27,\n  microservices: \x27Distributed services\x27,\n  serverless: \x27Event-driven\x27\n\x7d;\n// Best for " ++ skillName ++ "?"),
   ["Monolithic", "Modular", "Microservices", "Serverless"], 1⟩,
  ⟨("How do you handle error management in " ++ skillName ++ " projects?"),
   some ("// " ++ skillName ++ " error handling\ntry \x7b\n  process" ++ jsCapitalize skillName ++ "();\n\x7d catch (error) \x7b\n  // Error strategy?\n\x7d"),
   ["Silent failure", "Graceful degradation", "Immediate crash", "Retry mechanism"], 1⟩
]

/-- The creative entry of the questionTemplates record in generateRandomQuestions
(src/services/geminiService.ts); question text interpolates the skill name. -/
def creativeTemplates (skillName : String) : List QuizQuestion := [
  ⟨("What principle guides effective " ++ skillName ++ " design?"),
   some ("// " ++ skillName ++ " design principles\nconst principles = \x7b\n  balance: \x27Visual harmony\x27,\n  contrast: \x27Element differentiation\x27,\n  hierarchy: \x27Importance structure\x27,\n  rhythm: \x27Pattern repetition\x27\n\x7d;\n// Most important for " ++ skillName ++ "?"),
   ["Balance", "Contrast", "Hierarchy", "Rhythm"], 2⟩,
  ⟨("How would you approach creative problem-solving in " ++ skillName ++ "?"),
   some ("// " ++ skillName ++ " creative process\n1. Research and analysis\n2. Ideation and brainstorming\n3. Prototyping and testing\n4. Refinement and finalization\n// Critical phase for " ++ skillName ++ "?"),
   ["Research", "Ideation", "Prototyping", "Refinement"], 1⟩,
  ⟨("What makes " ++ skillName ++ " work impactful?"),
   some ("// " ++ skillName ++ " impact factors\nconst factors = \x7b\n  originality: \x27Unique approach\x27,\n  execution: \x27Technical quality\x27,\n  relevance: \x27Audience connection\x27,\n  innovation: \x27New perspective\x27\n\x7d;\n// Key impact driver?"),
   ["Originality", "Execution", "Relevance", "Innovation"], 2⟩,
  ⟨("How do you balance creativity and constraints in " ++ skillName ++ "?"),
   some ("// " ++ skillName ++ " constraint management\nconst constraints = \x7b\n  time: \x27Deadline pressure\x27,\n  budget: \x27Resource limits\x27,\n  scope: \x27Project boundaries\x27,\n  quality: \x27Standards requirements\x27\n\x7d;\n// Biggest challenge for " ++ skillName ++ "?"),
   ["Time constraints", "Budget limits", "Scope boundaries", "Quality standards"], 0⟩,
  ⟨("What tools enhance " ++ skillName ++ " productivity?"),
   some ("// " ++ skillName ++ " tool selection\nconst tools = \x7b\n  digital: \x27Software solutions\x27,\n  traditional: \x27Manual methods\x27,\n  hybrid: \x27Combined approach\x27,\n  automated: \x27AI-assisted\x27\n\x7d;\n// Best for " ++ skillName ++ "?"),
   ["Digital tools", "Traditional methods", "Hybrid approach", "AI automation"], 2⟩
]

/-- The business entry of the questionTemplates record in generateRandomQuestions
(src/services/geminiService.ts); question text interpolates the skill name. -/
def businessTemplates (skillName : String) : List QuizQuestion := [
  ⟨("What strategy drives success in " ++ skillName ++ "?"),
   some ("// " ++ skillName ++ " strategic planning\nconst strategies = \x7b\n  cost: \x27Price leadership\x27,\n  differentiation: \x27Unique value\x27,\n  focus: \x27Niche specialization\x27,\n  growth: \x27Market expansion\x27\n\x7d;\n// Best for " ++ skillName ++ "?"),
   ["Cost leadership", "Differentiation", "Focus strategy", "Growth strategy"], 1⟩,
  ⟨("How do you measure ROI for " ++ skillName ++ " initiatives?"),
   some ("// " ++ skillName ++ " ROI metrics\nconst metrics = \x7b\n  financial: \x27Monetary returns\x27,\n  operational: \x27Efficiency gains\x27,\n  strategic: \x27Market position\x27,\n  customer: \x27Satisfaction scores\x27\n\x7d;\n// Primary measure for " ++ skillName ++ "?"),
   ["Financial returns", "Operational efficiency", "Strategic position", "Customer satisfaction"], 1⟩,
  ⟨("What risk management approach suits " ++ skillName ++ " projects?"),
   some ("// " ++ skillName ++ " risk assessment\nconst risks = \x7b\n  market: \x27Demand changes\x27,\n  operational: \x27Process failures\x27,\n  financial: \x27Budget overruns\x27,\n  reputational: \x27Brand damage\x27\n\x7d;\n// Highest priority for " ++ skillName ++ "?"),
   ["Market risks", "Operational risks", "Financial risks", "Reputational risks"], 0⟩,
  ⟨("How do you build teams for " ++ skillName ++ " success?"),
   some ("// " ++ skillName ++ " team composition\nconst roles = \x7b\n  leadership: \x27Strategic direction\x27,\n  execution: \x27Implementation\x27,\n  support: \x27Enabling functions\x27,\n  innovation: \x27Creative input\x27\n\x7d;\n// Critical for " ++ skillName ++ "?"),
   ["Leadership", "Execution", "Support", "Innovation"], 1⟩,
  ⟨("What metrics indicate " ++ skillName ++ " performance?"),
   some ("// " ++ skillName ++ " KPI tracking\nconst indicators = \x7b\n  quantitative: \x27Numerical measures\x27,\n  qualitative: \x27Subjective assessment\x27,\n  leading: \x27Predictive signals\x27,\n  lagging: \x27Historical results\x27\n\x7d;\n// Best for " ++ skillName ++ "?"),
   ["Quantitative", "Qualitative", "Leading", "Lagging"], 2⟩
]

/-- The science entry of the questionTemplates record in generateRandomQuestions
(src/services/geminiService.ts); question text interpolates the skill name. -/
def scienceTemplates (skillName : String) : List QuizQuestion := [
  ⟨("What methodology ensures valid " ++ skillName ++ " research?"),
   some ("// " ++ skillName ++ " research methods\nconst methods = \x7b\n  experimental: \x27Controlled studies\x27,\n  observational: \x27Natural behavior\x27,\n  theoretical: \x27Mathematical models\x27,\n  computational: \x27Simulation analysis\x27\n\x7d;\n// Most rigorous for " ++ skillName ++ "?"),
   ["Experimental", "Observational", "Theoretical", "Computational"], 0⟩,
  ⟨("How do you validate " ++ skillName ++ " findings?"),
   some ("// " ++ skillName ++ " validation process\nconst steps = \x7b\n  replication: \x27Repeat studies\x27,\n  peer: \x27Expert review\x27,\n  statistical: \x27Data analysis\x27,\n  practical: \x27Real-world testing\x27\n\x7d;\n// Essential for " ++ skillName ++ "?"),
   ["Replication", "Peer review", "Statistical analysis", "Practical testing"], 0⟩,
  ⟨("What ethical considerations apply to " ++ skillName ++ "?"),
   some ("// " ++ skillName ++ " ethics assessment\nconst concerns = \x7b\n  consent: \x27Participant agreement\x27,\n  privacy: \x27Data protection\x27,\n  integrity: \x27Honest reporting\x27,\n  impact: \x27Societal effects\x27\n\x7d;\n// Priority for " ++ skillName ++ "?"),
   ["Informed consent", "Privacy protection", "Research integrity", "Societal impact"], 1⟩,
  ⟨("How do you analyze data in " ++ skillName ++ " studies?"),
   some ("// " ++ skillName ++ " data analysis\nconst approaches = \x7b\n  descriptive: \x27Summary statistics\x27,\n  inferential: \x27Hypothesis testing\x27,\n  predictive: \x27Model forecasting\x27,\n  prescriptive: \x27Optimization\x27\n\x7d;\n// Most appropriate for " ++ skillName ++ "?"),
   ["Descriptive", "Inferential", "Predictive", "Prescriptive"], 1⟩,
  ⟨("What tools enhance " ++ skillName ++ " research?"),
   some ("// " ++ skillName ++ " research tools\nconst equipment = \x7b\n  measurement: \x27Data collection\x27,\n  analysis: \x27Processing software\x27,\n  visualization: \x27Result presentation\x27,\n  collaboration: \x27Team coordination\x27\n\x7d;\n// Critical for " ++ skillName ++ "?"),
   ["Measurement tools", "Analysis software", "Visualization tools", "Collaboration platforms"], 1⟩
]

/-- The general entry of the questionTemplates record in generateRandomQuestions
(src/services/geminiService.ts); question text interpolates the skill name. -/
def generalTemplates (skillName : String) : List QuizQuestion := [
  ⟨("What skill is most valuable for " ++ skillName ++ " mastery?"),
   some ("// " ++ skillName ++ " skill assessment\nconst abilities = \x7b\n  technical: \x27Domain knowledge\x27,\n  creative: \x27Innovative thinking\x27,\n  analytical: \x27Problem solving\x27,\n  communication: \x27Information exchange\x27\n\x7d;\n// Essential for " ++ skillName ++ "?"),
   ["Technical knowledge", "Creative thinking", "Analytical skills", "Communication"], 2⟩,
  ⟨("How do you approach learning " ++ skillName ++ " effectively?"),
   some ("// " ++ skillName ++ " learning strategy\nconst methods = \x7b\n  theoretical: \x27Study concepts\x27,\n  practical: \x27Hands-on experience\x27,\n  collaborative: \x27Group learning\x27,\n  selfDirected: \x27Independent exploration\x27\n\x7d;\n// Best for " ++ skillName ++ "?"),
   ["Theory study", "Practice", "Collaboration", "Self-directed"], 1⟩,
  ⟨("What challenges are common when learning " ++ skillName ++ "?"),
   some ("// " ++ skillName ++ " learning obstacles\nconst barriers = \x7b\n  complexity: \x27Difficult concepts\x27,\n  resources: \x27Limited materials\x27,\n  time: \x27Insufficient practice\x27,\n  motivation: \x27Low engagement\x27\n\x7d;\n// Biggest hurdle for " ++ skillName ++ "?"),
   ["Complexity", "Resource limits", "Time constraints", "Motivation"], 0⟩,
  ⟨("How do you apply " ++ skillName ++ " in real situations?"),
   some ("// " ++ skillName ++ " practical application\nconst contexts = \x7b\n  academic: \x27Educational settings\x27,\n  professional: \x27Work environments\x27,\n  personal: \x27Individual projects\x27,\n  community: \x27Group activities\x27\n\x7d;\n// Most relevant for " ++ skillName ++ "?"),
   ["Academic", "Professional", "Personal", "Community"], 1⟩,
  ⟨("What resources support " ++ skillName ++ " development?"),
   some ("// " ++ skillName ++ " resource types\nconst materials = \x7b\n  books: \x27Written guides\x27,\n  courses: \x27Structured learning\x27,\n  mentors: \x27Expert guidance\x27,\n  practice: \x27Applied experience\x27\n\x7d;\n// Most valuable for " ++ skillName ++ "?"),
   ["Books", "Courses", "Mentors", "Practice"], 3⟩
]

/-- The questionTemplates record of generateRandomQuestions, in insertion order. -/
def questionTemplates (skillName : String) : List (String × List QuizQuestion) := [
  ("technical", technicalTemplates skillName),
  ("creative", creativeTemplates skillName),
  ("business", businessTemplates skillName),
  ("science", scienceTemplates skillName),
  ("general", generalTemplates skillName)
]

/-- The static six-step fallback roadmap of generateRoadmapDirect
(src/services/mistralDirectService.ts); titles and descriptions interpolate the skill. -/
def fallbackRoadmap (skill : String) : List RoadmapItem := [
  ⟨1, ("Getting Started with " ++ skill),
   ("Learn the fundamentals and basic concepts of " ++ skill),
   "1-2 weeks", ["Official documentation", "Beginner tutorials", "Practice exercises"]⟩,
  ⟨2, ("Core " ++ skill ++ " Concepts"),
   "Deep dive into essential concepts and principles",
   "2-3 weeks", ["Video courses", "Hands-on projects", "Community forums"]⟩,
  ⟨3, "Practical Application",
   "Apply your knowledge through real-world projects",
   "3-4 weeks", ["Project templates", "Code repositories", "Mentorship programs"]⟩,
  ⟨4, "Advanced Techniques",
   "Master advanced concepts and best practices",
   "4-6 weeks", ["Advanced documentation", "Expert tutorials", "Case studies"]⟩,
  ⟨5, "Specialization",
   ("Focus on specific areas of expertise within " ++ skill),
   "6-8 weeks", ["Specialized courses", "Research papers", "Professional workshops"]⟩,
  ⟨6, "Mastery & Portfolio",
   "Build a comprehensive portfolio and contribute to the community",
   "8-12 weeks", ["Portfolio projects", "Open source contributions", "Speaking opportunities"]⟩
]

/-! ## Fallback selector (getFallbackQuiz and generateRandomQuestions) -/

/-- The keyword scan of getFallbackQuiz: for every entry of skillMatches in
order, the first alias of its keyword list contained in the lowercased topic
is pushed once (the source breaks after the first hit per key); the recorded
length field of the source is the length of this alias. -/
def keywordMatches (lowerSkillName : String) : List (String × String) :=
  skillMatches.filterMap fun p =>
    (p.2.find? fun keyword => jsIncludes lowerSkillName keyword).map fun keyword => (p.1, keyword)

/-- Stable insertion by descending alias length, modelling one step of the
stable JavaScript `matches.sort((a, b) => b.length - a.length)`: an element
is placed before every later element whose alias is not strictly longer. -/
def insertByLenDesc (m : String × String) :
    List (String × String) → List (String × String)
  | [] => [m]
  | y :: ys => if y.2.length > m.2.length then y :: insertByLenDesc m ys else m :: y :: ys

/-- The stable sort by descending matched-alias length applied to the keyword
scan results before `matches[0]` is taken. -/
def sortByLenDesc : List (String × String) → List (String × String)
  | [] => []
  | m :: rest => insertByLenDesc m (sortByLenDesc rest)

/-- The domain detection loop of generateRandomQuestions: the first domains
entry (in insertion order) with a keyword contained in the lowercased skill
name; detectedDomain keeps its initial value "general" when no entry matches
(the "general" entry itself has no keywords, so it never matches). -/
def detectDomain (lowerSkillName : String) : String :=
  match domains.find? (fun p => p.2.any fun keyword => jsIncludes lowerSkillName keyword) with
  | some p => p.1
  | none => "general"

/-- generateRandomQuestions of src/services/geminiService.ts: classify the
topic into a domain, look the domain up in questionTemplates (falling back to
the general pool), shuffle a copy of the pool and return the first 5.  The
`shuffle` argument stands for the permutation produced by
`[...domainQuestions].sort(() => Math.random() - 0.5)`. -/
def generateRandomQuestions (skillName : String)
    (shuffle : List QuizQuestion → List QuizQuestion) : List QuizQuestion :=
  let domainQuestions :=
    (listLookup (detectDomain (jsToLower skillName)) (questionTemplates skillName)).getD
      (generalTemplates skillName)
  (shuffle domainQuestions).take 5

/-- getFallbackQuiz of src/services/geminiService.ts.  In order: exact lookup
of the lowercased skill name among the skillMatches keys (returning the key of that entry
quiz from fallbackQuizzes, or the javascript quiz when the key has no entry
there); otherwise the keyword scan sorted by descending alias length with the
quiz of the best match (javascript again as the `||` default); otherwise the legacy
substring loop over the fallbackQuizzes keys; otherwise generateRandomQuestions
on the original (uncased) skill name. -/
def getFallbackQuiz (skillName : String)
    (shuffle : List QuizQuestion → List QuizQuestion) : List QuizQuestion :=
  match listLookup (jsToLower skillName) skillMatches with
  | some _ => (listLookup (jsToLower skillName) fallbackQuizzes).getD javascriptQuiz
  | none =>
    match (sortByLenDesc (keywordMatches (jsToLower skillName))).head? with
    | some bestMatch => (listLookup bestMatch.1 fallbackQuizzes).getD javascriptQuiz
    | none =>
      match fallbackQuizzes.find? (fun p => jsIncludes (jsToLower skillName) p.1) with
      | some p => p.2
      | none => generateRandomQuestions skillName shuffle

/-! ## Retry policy (retryWithBackoff) -/

/-- The error shape inspected by retryWithBackoff: the nested numeric code
`error?.error?.code`, the message `error?.message` and the numeric status
`error?.status`; none models an absent field. -/
structure JsError where
  code : Option Int
  message : Option String
  status : Option Int
deriving DecidableEq

/-- The 503 classification of retryWithBackoff: nested code 503, or a message
containing "503", or status 503. -/
def is503Error (e : JsError) : Bool :=
  e.code == some 503 ||
    (match e.message with
     | some m => jsIncludes m "503"
     | none => false) ||
    e.status == some 503

/-- The fatal classification of retryWithBackoff: nested code 400 or 401
(client errors that are never retried). -/
def isFatalError (e : JsError) : Bool := e.code == some 400 || e.code == some 401

/-- The error thrown after the retry loop (line 52 of geminiService.ts); in
practice unreachable for maxRetries at least 1. -/
def maxRetriesError : JsError := ⟨none, some "Max retries exceeded", none⟩

/-- The retry loop of retryWithBackoff.  `op attempt` is the outcome of the
attempt-th invocation of the operation and `rand attempt` the Math.random draw
consumed when attempt fails retryably; `fuel` is the number of remaining loop
iterations (maxRetries + 1 - attempt, so the loop shape matches
`for (attempt = 1; attempt <= maxRetries; attempt++)`).  Returns the overall
outcome, the number of invocations of the operation, and the list of backoff
delays computed (in ms). -/
def retryGo {α : Type} (op : Nat → Except JsError α) (rand : Nat → ℚ)
    (maxRetries : Nat) (baseDelay : ℚ) :
    Nat → Nat → Except JsError α × Nat × List ℚ
  | _, 0 => (.error maxRetriesError, 0, [])
  | attempt, fuel + 1 =>
    match op attempt with
    | .ok v => (.ok v, 1, [])
    | .error e =>
      if isFatalError e then (.error e, 1, [])
      else if attempt = maxRetries then (.error e, 1, [])
      else
        let delay : ℚ :=
          if is503Error e then baseDelay * 2 ^ attempt + rand attempt * 2000
          else baseDelay * 2 ^ (attempt - 1) + rand attempt * 1000
        let rest := retryGo op rand maxRetries baseDelay (attempt + 1) fuel
        (rest.1, rest.2.1 + 1, delay :: rest.2.2)

/-- retryWithBackoff of src/services/geminiService.ts: the loop started at
attempt 1 with maxRetries iterations available. -/
def retryWithBackoff {α : Type} (op : Nat → Except JsError α) (rand : Nat → ℚ)
    (maxRetries : Nat) (baseDelay : ℚ) : Except JsError α × Nat × List ℚ :=
  retryGo op rand maxRetries baseDelay 1 maxRetries

/-! ## Content generator operations -/

/-- JavaScript truthiness of a string-or-undefined value: undefined and the
empty string are falsy. -/
def truthyStr : Option String → Bool
  | none => false
  | some s => !(s == "")

/-- JavaScript `a || b` on string-or-undefined values. -/
def jsOrStr (a b : Option String) : Option String := if truthyStr a then a else b

/-- The error thrown by getAIClient when no API key is configured. -/
def apiKeyError : JsError := ⟨none, some "API Key not found", none⟩

/-- getAIClient of src/services/geminiService.ts: reads
`process.env.API_KEY || process.env.GEMINI_API_KEY` (the env pair argument)
and throws "API Key not found" when neither is set to a non-empty string. -/
def getAIClient (env : Option String × Option String) : Except JsError Unit :=
  if truthyStr (jsOrStr env.1 env.2) then .ok () else .error apiKeyError

/-- The thunk retried by generateQuiz: constructs the client, performs the
remote structured-output call, and parses `response.text` (a missing text
gives the empty list).  `remote attempt` is the decoded outcome of the
attempt-th remote call. -/
def generateQuizInternal (env : Option String × Option String)
    (remote : Nat → Except JsError (Option (List QuizQuestion))) (attempt : Nat) :
    Except JsError (List QuizQuestion) :=
  match getAIClient env with
  | .error e => .error e
  | .ok _ =>
    match remote attempt with
    | .error e => .error e
    | .ok (some questions) => .ok questions
    | .ok none => .ok []

/-- generateQuiz of src/services/geminiService.ts: retryWithBackoff with
maxRetries 3 and base delay 1000 around the internal thunk; any failure of
the retried path is caught and answered with getFallbackQuiz. -/
def generateQuiz (env : Option String × Option String)
    (remote : Nat → Except JsError (Option (List QuizQuestion))) (rand : Nat → ℚ)
    (skillName : String) (shuffle : List QuizQuestion → List QuizQuestion) :
    List QuizQuestion :=
  match (retryWithBackoff (generateQuizInternal env remote) rand 3 1000).1 with
  | .ok questions => questions
  | .error _ => getFallbackQuiz skillName shuffle

/-- generateRoadmap of src/services/geminiService.ts: the client is built
before the try block; a single remote call with no retry; a missing
`response.text` gives the empty list; the catch block logs and rethrows the
error. -/
def generateRoadmap (env : Option String × Option String)
    (remote : Except JsError (Option (List RoadmapItem))) :
    Except JsError (List RoadmapItem) :=
  match getAIClient env with
  | .error e => .error e
  | .ok _ =>
    match remote with
    | .ok (some items) => .ok items
    | .ok none => .ok []
    | .error e => .error e

/-- The decoded result shape of analyzeMatch: score, reasoning and common
interests. -/
structure MatchResult where
  score : Int
  reasoning : String
  commonInterests : List String
deriving DecidableEq

/-- analyzeMatch of src/services/geminiService.ts: the client is built before
the try block (so a missing API key propagates); inside the try a missing
`response.text` gives the score-0 result and any thrown error is answered
with the fixed neutral score-50 result. -/
def analyzeMatch (env : Option String × Option String)
    (remote : Except JsError (Option MatchResult)) : Except JsError MatchResult :=
  match getAIClient env with
  | .error e => .error e
  | .ok _ =>
    match remote with
    | .ok (some r) => .ok r
    | .ok none => .ok ⟨0, "Could not analyze match.", []⟩
    | .error _ => .ok ⟨50, "AI analysis unavailable.", []⟩

/-- The default suggestions of the catch block of suggestSkills
(src/services/geminiService.ts). -/
def geminiDefaultSkills : List String :=
  ["Machine Learning", "Cloud Computing", "Cybersecurity", "DevOps", "Blockchain"]

/-- suggestSkills of src/services/geminiService.ts: the client is built before
the try block; the decoded remote outcome has an outer Option for
`response.text` presence and an inner Option for the `data.skills` field
(`data.skills || []`); a thrown error inside the try is answered with the
default list filtered against the known skills and goals. -/
def suggestSkills (env : Option String × Option String)
    (remote : Except JsError (Option (Option (List String))))
    (currentSkills currentGoals : List String) : Except JsError (List String) :=
  match getAIClient env with
  | .error e => .error e
  | .ok _ =>
    match remote with
    | .ok (some (some skills)) => .ok skills
    | .ok (some none) => .ok []
    | .ok none => .ok []
    | .error _ =>
      .ok (geminiDefaultSkills.filter fun s =>
        !(currentSkills.contains s) && !(currentGoals.contains s))

/-- The fixed fallback list of suggestSkillsDirect
(src/services/mistralDirectService.ts). -/
def mistralDefaultSkills : List String := ["React", "Node.js", "TypeScript", "Docker", "AWS"]

/-- suggestSkillsDirect of src/services/mistralDirectService.ts: `remote` is
the decoded outcome (some skills when `parsed.skills` is an array — of any
length, no length check is performed; none when the field is missing or not
an array, which throws inside the try); every throw is caught and answered
with the fixed fallback list. -/
def suggestSkillsDirect (remote : Except JsError (Option (List String))) : List String :=
  match remote with
  | .ok (some skills) => skills
  | .ok none => mistralDefaultSkills
  | .error _ => mistralDefaultSkills

/-- generateRoadmapDirect of src/services/mistralDirectService.ts: returns the
decoded `parsed.roadmap` array unchecked beyond Array.isArray; every throw is
caught and answered with the static six-step fallback roadmap. -/
def generateRoadmapDirect (remote : Except JsError (Option (List RoadmapItem)))
    (skill : String) : List RoadmapItem :=
  match remote with
  | .ok (some roadmap) => roadmap
  | .ok none => fallbackRoadmap skill
  | .error _ => fallbackRoadmap skill

/-! ## Server-side Mistral module (src/unnamed/part_000) -/

/-- `error.message` interpolation in the server wrappers; an absent message
renders as "undefined" in the template string. -/
def errMessage (e : JsError) : String := e.message.getD "undefined"

/-- The wrapping rethrow of the server suggestSkills catch block. -/
def wrapSkillsError (m : String) : JsError :=
  ⟨none, some ("Failed to suggest skills: " ++ m), none⟩

/-- The wrapping rethrow of the server generateRoadmap catch block. -/
def wrapRoadmapError (m : String) : JsError :=
  ⟨none, some ("Failed to generate roadmap: " ++ m), none⟩

/-- suggestSkills of src/unnamed/part_000: validates that `data.skills` is an
array of exactly 5 entries, otherwise throws; every failure is wrapped and
rethrown (the server path has no fallback). -/
def serverSuggestSkills (remote : Except JsError (Option (List String))) :
    Except JsError (List String) :=
  match remote with
  | .error e => .error (wrapSkillsError (errMessage e))
  | .ok none => .error (wrapSkillsError "Invalid skills response structure")
  | .ok (some skills) =>
    if skills.length ≠ 5 then
      .error (wrapSkillsError ("Expected 5 skills, got " ++ toString skills.length))
    else .ok skills

/-- A roadmap step as decoded from JSON before the server-side validation;
Option fields model properties that may be absent from the decoded object. -/
structure RawStep where
  step : Option Int
  title : Option String
  description : Option String
  duration : Option String
  resources : Option (List String)
deriving DecidableEq

/-- The per-step validation of the server generateRoadmap: title, description
and duration must be truthy strings and resources an array of exactly 3
entries; returns the message of the first violation. -/
def stepError (index : Nat) (s : RawStep) : Option String :=
  if !truthyStr s.title then some ("Step " ++ toString (index + 1) ++ ": Invalid title")
  else if !truthyStr s.description then
    some ("Step " ++ toString (index + 1) ++ ": Invalid description")
  else if !truthyStr s.duration then
    some ("Step " ++ toString (index + 1) ++ ": Invalid duration")
  else
    match s.resources with
    | some rs =>
      if rs.length ≠ 3 then
        some ("Step " ++ toString (index + 1) ++ ": Must have exactly 3 resources")
      else none
    | none => some ("Step " ++ toString (index + 1) ++ ": Must have exactly 3 resources")

/-- The forEach validation loop of the server generateRoadmap: the first step
error, scanning in order with 0-based indices. -/
def firstStepError : Nat → List RawStep → Option String
  | _, [] => none
  | index, s :: rest =>
    match stepError index s with
    | some m => some m
    | none => firstStepError (index + 1) rest

/-- generateRoadmap of src/unnamed/part_000: validates that `data.roadmap` is
an array of exactly 6 steps each passing stepError, otherwise throws; every
failure is wrapped and rethrown (the server path has no fallback). -/
def serverGenerateRoadmap (remote : Except JsError (Option (List RawStep))) :
    Except JsError (List RawStep) :=
  match remote with
  | .error e => .error (wrapRoadmapError (errMessage e))
  | .ok none => .error (wrapRoadmapError "Invalid roadmap response structure")
  | .ok (some roadmap) =>
    if roadmap.length ≠ 6 then
      .error (wrapRoadmapError ("Expected 6 roadmap steps, got " ++ toString roadmap.length))
    else
      match firstStepError 0 roadmap with
      | some m => .error (wrapRoadmapError m)
      | none => .ok roadmap

/-! ## Shape predicates -/

/-- The answer-index invariant of a quiz question: correctAnswerIndex is a
valid zero-based index into the options array. -/
def questionOk (q : QuizQuestion) : Prop :=
  0 ≤ q.correctAnswerIndex ∧ q.correctAnswerIndex < (q.options.length : Int)

instance (q : QuizQuestion) : Decidable (questionOk q) :=
  inferInstanceAs (Decidable (_ ∧ _))

/-- The quiz shape invariant: exactly 5 questions, each with an in-range
answer index. -/
def quizShapeOk (l : List QuizQuestion) : Prop :=
  l.length = 5 ∧ ∀ q ∈ l, questionOk q

instance (l : List QuizQuestion) : Decidable (quizShapeOk l) :=
  inferInstanceAs (Decidable (_ ∧ _))

/-! ## Helper lemmas -/

theorem listLookup_mem {α : Type} (key : String) (l : List (String × α)) (v : α)
    (h : listLookup key l = some v) : (key, v) ∈ l := by
  induction l with
  | nil => simp [listLookup] at h
  | cons p rest ih =>
    obtain ⟨k, w⟩ := p
    by_cases hk : k = key
    · subst hk
      rw [listLookup] at h
      simp only [eq_self_iff_true, if_true, Option.some.injEq] at h
      subst h
      exact List.mem_cons_self _ _
    · simp only [listLookup, if_neg hk] at h
      exact List.mem_cons_of_mem _ (ih h)

theorem fallbackQuizzes_ok : ∀ p ∈ fallbackQuizzes, quizShapeOk p.2 := by decide

theorem javascriptQuiz_ok : quizShapeOk javascriptQuiz := by decide

theorem templates_ok (s : String) : ∀ p ∈ questionTemplates s, quizShapeOk p.2 := by
  intro p hp
  simp only [questionTemplates, List.mem_cons, List.not_mem_nil, or_false] at hp
  rcases hp with rfl | rfl | rfl | rfl | rfl <;>
    refine ⟨rfl, ?_⟩ <;> intro q hq <;>
    simp only [technicalTemplates, creativeTemplates, businessTemplates, scienceTemplates,
      generalTemplates, List.mem_cons, List.not_mem_nil, or_false] at hq <;>
    rcases hq with rfl | rfl | rfl | rfl | rfl <;> exact ⟨by norm_num, by norm_num⟩

theorem generalTemplates_ok (s : String) : quizShapeOk (generalTemplates s) :=
  templates_ok s ("general", generalTemplates s) (by simp [questionTemplates])

theorem lookup_fallback_ok (key : String) :
    quizShapeOk ((listLookup key fallbackQuizzes).getD javascriptQuiz) := by
  cases h : listLookup key fallbackQuizzes with
  | none => simpa using javascriptQuiz_ok
  | some l => simpa using fallbackQuizzes_ok _ (listLookup_mem _ _ _ h)

theorem pool_ok (t : String) :
    quizShapeOk
      ((listLookup (detectDomain (jsToLower t)) (questionTemplates t)).getD
        (generalTemplates t)) := by
  cases h : listLookup (detectDomain (jsToLower t)) (questionTemplates t) with
  | none => simpa using generalTemplates_ok t
  | some l => simpa using templates_ok t _ (listLookup_mem _ _ _ h)

theorem generateRandomQuestions_sub (t : String)
    (sh : List QuizQuestion → List QuizQuestion) (hsh : ∀ l, List.Perm (sh l) l) :
    (generateRandomQuestions t sh).length = 5 ∧
      ∀ q ∈ generateRandomQuestions t sh,
        q ∈ (listLookup (detectDomain (jsToLower t)) (questionTemplates t)).getD
          (generalTemplates t) := by
  have hmain : generateRandomQuestions t sh =
      (sh ((listLookup (detectDomain (jsToLower t)) (questionTemplates t)).getD
        (generalTemplates t))).take 5 := rfl
  rw [hmain]
  constructor
  · rw [List.length_take,
      (hsh ((listLookup (detectDomain (jsToLower t)) (questionTemplates t)).getD
        (generalTemplates t))).length_eq, (pool_ok t).1]
    simp
  · intro q hq
    exact ((hsh _).mem_iff).mp (List.mem_of_mem_take hq)

theorem find?_cons_eq {α : Type} (p : α → Bool) (a : α) (l : List α) :
    List.find? p (a :: l) = if p a then some a else List.find? p l := by
  cases h : p a <;> simp [List.find?, h]

theorem insertByLenDesc_head (m : String × String) (l : List (String × String)) :
    ∃ h, (insertByLenDesc m l).head? = some h ∧ m.2.length ≤ h.2.length ∧
      ∀ y, l.head? = some y → y.2.length ≤ h.2.length := by
  cases l with
  | nil => exact ⟨m, rfl, le_refl _, by intro y hy; simp at hy⟩
  | cons y ys =>
    by_cases hc : y.2.length > m.2.length
    · refine ⟨y, by simp [insertByLenDesc, hc], le_of_lt hc, ?_⟩
      intro z hz
      simp only [List.head?_cons, Option.some.injEq] at hz
      subst hz
      exact le_refl _
    · refine ⟨m, by simp [insertByLenDesc, hc], le_refl _, ?_⟩
      intro z hz
      simp only [List.head?_cons, Option.some.injEq] at hz
      subst hz
      omega

theorem sortByLenDesc_max (l : List (String × String)) (x : String × String)
    (hx : x ∈ l) :
    ∃ best, (sortByLenDesc l).head? = some best ∧ x.2.length ≤ best.2.length := by
  induction l with
  | nil => cases hx
  | cons m rest ih =>
    obtain ⟨h, hh, hm, hmax⟩ := insertByLenDesc_head m (sortByLenDesc rest)
    have hgoal : (sortByLenDesc (m :: rest)).head? = some h := by
      rw [sortByLenDesc]; exact hh
    rcases List.mem_cons.mp hx with rfl | hx2
    · exact ⟨h, hgoal, hm⟩
    · obtain ⟨b, hb, hxb⟩ := ih hx2
      exact ⟨h, hgoal, le_trans hxb (hmax b hb)⟩

theorem retryGo_all_error {α : Type} (op : Nat → Except JsError α) (rand : Nat → ℚ)
    (maxRetries : Nat) (baseDelay : ℚ) (errs : Nat → JsError)
    (hop : ∀ n, op n = .error (errs n)) (hnf : ∀ n, isFatalError (errs n) = false) :
    ∀ fuel attempt, 1 ≤ fuel → attempt + fuel = maxRetries + 1 →
      (retryGo op rand maxRetries baseDelay attempt fuel).1 = .error (errs maxRetries) ∧
      (retryGo op rand maxRetries baseDelay attempt fuel).2.1 = fuel := by
  intro fuel
  induction fuel with
  | zero => intro a h; exact absurd h (by decide)
  | succ f ih =>
    intro a _ hsum
    by_cases ham : a = maxRetries
    · have hf0 : f = 0 := by omega
      subst ham; subst hf0
      simp [retryGo, hop, hnf]
    · have hf1 : 1 ≤ f := by omega
      obtain ⟨ih1, ih2⟩ := ih (a + 1) hf1 (by omega)
      simp [retryGo, hop, hnf, ham, ih1, ih2]

theorem truthyStr_iff (o : Option String) :
    truthyStr o = true ↔ ∃ x, o = some x ∧ x ≠ "" := by
  cases o <;> simp [truthyStr]

theorem stepError_none (j : Nat) (s : RawStep) (h : stepError j s = none) :
    (∃ x, s.title = some x ∧ x ≠ "") ∧ (∃ x, s.description = some x ∧ x ≠ "") ∧
      (∃ x, s.duration = some x ∧ x ≠ "") ∧
      (∃ rs, s.resources = some rs ∧ rs.length = 3) := by
  unfold stepError at h
  cases h1 : truthyStr s.title with
  | false => rw [h1] at h; simp at h
  | true =>
    rw [h1] at h
    cases h2 : truthyStr s.description with
    | false => rw [h2] at h; simp at h
    | true =>
      rw [h2] at h
      cases h3 : truthyStr s.duration with
      | false => rw [h3] at h; simp at h
      | true =>
        rw [h3] at h
        simp only [Bool.not_true, Bool.false_eq_true, if_false] at h
        cases hr : s.resources with
        | none => rw [hr] at h; simp at h
        | some rs =>
          rw [hr] at h
          by_cases hl : rs.length = 3
          · exact ⟨(truthyStr_iff _).mp h1, (truthyStr_iff _).mp h2,
              (truthyStr_iff _).mp h3, rs, rfl, hl⟩
          · simp [hl] at h

theorem firstStepError_none :
    ∀ (l : List RawStep) (i : Nat), firstStepError i l = none →
      ∀ s ∈ l, ∃ j, stepError j s = none := by
  intro l
  induction l with
  | nil => intro i _ s hs; cases hs
  | cons a rest ih =>
    intro i h s hs
    rw [firstStepError] at h
    cases ha : stepError i a with
    | some m => rw [ha] at h; simp at h
    | none =>
      rw [ha] at h
      rcases List.mem_cons.mp hs with rfl | hs2
      · exact ⟨i, ha⟩
      · exact ih (i + 1) h s hs2

/-! ## Claim theorems -/

/-- C1: for every topic string and every permutation the engine shuffle may
produce, getFallbackQuiz (including its generateRandomQuestions branch)
returns exactly 5 quiz questions, each with correctAnswerIndex at least 0 and
strictly below the length of its options list. -/
theorem fallback_quiz_shape (t : String) (sh : List QuizQuestion → List QuizQuestion)
    (hsh : ∀ l, List.Perm (sh l) l) :
    (getFallbackQuiz t sh).length = 5 ∧
      ∀ q ∈ getFallbackQuiz t sh,
        0 ≤ q.correctAnswerIndex ∧ q.correctAnswerIndex < (q.options.length : Int) := by
  suffices h : quizShapeOk (getFallbackQuiz t sh) from ⟨h.1, fun q hq => h.2 q hq⟩
  unfold getFallbackQuiz
  cases h1 : listLookup (jsToLower t) skillMatches with
  | some v => exact lookup_fallback_ok _
  | none =>
    cases h2 : (sortByLenDesc (keywordMatches (jsToLower t))).head? with
    | some best => exact lookup_fallback_ok _
    | none =>
      cases h3 : fallbackQuizzes.find? (fun p => jsIncludes (jsToLower t) p.1) with
      | some p => exact fallbackQuizzes_ok _ (List.mem_of_find?_eq_some h3)
      | none =>
        obtain ⟨hlen, hsub⟩ := generateRandomQuestions_sub t sh hsh
        exact ⟨hlen, fun q hq => (pool_ok t).2 q (hsub q hq)⟩

/-- C1 witness: the shape invariant instantiated at the topic "gardening"
(which reaches the generateRandomQuestions branch) with the identity
permutation. -/
theorem fallback_quiz_shape_witness :
    (∀ l : List QuizQuestion, List.Perm ((fun l => l) l) l) ∧
    ((getFallbackQuiz "gardening" (fun l => l)).length = 5 ∧
      ∀ q ∈ getFallbackQuiz "gardening" (fun l => l),
        0 ≤ q.correctAnswerIndex ∧ q.correctAnswerIndex < (q.options.length : Int)) :=
  ⟨fun l => List.Perm.refl l,
    fallback_quiz_shape "gardening" (fun l => l) (fun l => List.Perm.refl l)⟩

/-- C3: a retried operation that throws a non-fatal (retryable) error on every
invocation is invoked exactly 3 times by retryWithBackoff with maxRetries 3,
and the error of the third invocation is rethrown. -/
theorem retry_exhaustion {α : Type} (op : Nat → Except JsError α) (rand : Nat → ℚ)
    (baseDelay : ℚ) (errs : Nat → JsError)
    (hop : ∀ n, op n = .error (errs n)) (hnf : ∀ n, isFatalError (errs n) = false) :
    (retryWithBackoff op rand 3 baseDelay).1 = .error (errs 3) ∧
      (retryWithBackoff op rand 3 baseDelay).2.1 = 3 :=
  retryGo_all_error op rand 3 baseDelay errs hop hnf 3 1 (by decide) (by decide)

/-- C3 witness: a concrete operation failing with a constant transient error
on every attempt is invoked 3 times and its error comes back. -/
theorem retry_exhaustion_witness :
    (∀ n : Nat, (fun _ : Nat => (Except.error ⟨none, some "boom", none⟩ : Except JsError Unit)) n
        = Except.error ((fun _ : Nat => (⟨none, some "boom", none⟩ : JsError)) n)) ∧
    (∀ n : Nat, isFatalError ((fun _ : Nat => (⟨none, some "boom", none⟩ : JsError)) n) = false) ∧
    ((retryWithBackoff (fun _ : Nat => (Except.error ⟨none, some "boom", none⟩ : Except JsError Unit))
        (fun _ => 0) 3 10).1 = Except.error ⟨none, some "boom", none⟩ ∧
      (retryWithBackoff (fun _ : Nat => (Except.error ⟨none, some "boom", none⟩ : Except JsError Unit))
        (fun _ => 0) 3 10).2.1 = 3) :=
  ⟨fun _ => rfl, fun _ => rfl,
    retry_exhaustion (fun _ => Except.error ⟨none, some "boom", none⟩) (fun _ => 0) 10
      (fun _ => ⟨none, some "boom", none⟩) (fun _ => rfl) (fun _ => rfl)⟩

/-- C4: an operation whose first failure is fatal-classified (nested code 400
or 401) is invoked exactly once by retryWithBackoff with maxRetries 3; the
error is rethrown immediately, with no backoff delay computed and no further
attempts. -/
theorem retry_fatal {α : Type} (op : Nat → Except JsError α) (rand : Nat → ℚ)
    (baseDelay : ℚ) (e : JsError)
    (hop : op 1 = .error e) (hf : isFatalError e = true) :
    retryWithBackoff op rand 3 baseDelay = (.error e, 1, []) := by
  show retryGo op rand 3 baseDelay 1 (2 + 1) = _
  rw [retryGo, hop]
  simp [hf]

/-- C4 witness: a concrete operation failing with code 400 is invoked once,
its error rethrown, with an empty delay list. -/
theorem retry_fatal_witness :
    ((fun _ : Nat => (Except.error ⟨some 400, none, none⟩ : Except JsError Unit)) 1
        = Except.error ⟨some 400, none, none⟩) ∧
    isFatalError ⟨some 400, none, none⟩ = true ∧
    retryWithBackoff (fun _ : Nat => (Except.error ⟨some 400, none, none⟩ : Except JsError Unit))
      (fun _ => 0) 3 10 = (Except.error ⟨some 400, none, none⟩, 1, []) :=
  ⟨rfl, rfl,
    retry_fatal (fun _ => Except.error ⟨some 400, none, none⟩) (fun _ => 0) 10
      ⟨some 400, none, none⟩ rfl rfl⟩

/-- C5: when attempt number `attempt` (1 ≤ attempt < maxRetries) of the retry
loop fails with a retryable error, the delay the loop records is
baseDelay * 2 ^ attempt plus a jitter rand(attempt) * 2000 lying in [0, 2000)
when the error is 503-classified, and baseDelay * 2 ^ (attempt - 1) plus a
jitter rand(attempt) * 1000 lying in [0, 1000) otherwise (`fuel` is the
number of remaining iterations, maxRetries + 1 - attempt, as passed along by
retryWithBackoff). -/
theorem retry_delay_formula {α : Type} (op : Nat → Except JsError α) (rand : Nat → ℚ)
    (maxRetries : Nat) (baseDelay : ℚ) (attempt fuel : Nat) (e : JsError)
    (hop : op attempt = .error e) (hnf : isFatalError e = false)
    (h1 : 1 ≤ attempt) (hlt : attempt < maxRetries)
    (hfuel : attempt + fuel = maxRetries + 1)
    (hr0 : 0 ≤ rand attempt) (hr1 : rand attempt < 1) :
    (is503Error e = true →
      ∃ rest, (retryGo op rand maxRetries baseDelay attempt fuel).2.2 =
          (baseDelay * 2 ^ attempt + rand attempt * 2000) :: rest ∧
        0 ≤ rand attempt * 2000 ∧ rand attempt * 2000 < 2000) ∧
    (is503Error e = false →
      ∃ rest, (retryGo op rand maxRetries baseDelay attempt fuel).2.2 =
          (baseDelay * 2 ^ (attempt - 1) + rand attempt * 1000) :: rest ∧
        0 ≤ rand attempt * 1000 ∧ rand attempt * 1000 < 1000) := by
  obtain ⟨f, rfl⟩ : ∃ f, fuel = f + 1 := ⟨fuel - 1, by omega⟩
  have hne : attempt ≠ maxRetries := Nat.ne_of_lt hlt
  constructor <;> intro h503
  · refine ⟨(retryGo op rand maxRetries baseDelay (attempt + 1) f).2.2, ?_, ?_, ?_⟩
    · simp [retryGo, hop, hnf, hne, h503]
    · exact mul_nonneg hr0 (by norm_num)
    · have := mul_lt_mul_of_pos_right hr1 (show (0 : ℚ) < 2000 by norm_num)
      simpa using this
  · refine ⟨(retryGo op rand maxRetries baseDelay (attempt + 1) f).2.2, ?_, ?_, ?_⟩
    · simp [retryGo, hop, hnf, hne, h503]
    · exact mul_nonneg hr0 (by norm_num)
    · have := mul_lt_mul_of_pos_right hr1 (show (0 : ℚ) < 1000 by norm_num)
      simpa using this

/-- C5 witness: the delay formula instantiated at a concrete 503 failure of
attempt 1 with base delay 10, maxRetries 3 and Math.random draw 1/2. -/
theorem retry_delay_formula_witness :
    ((fun _ : Nat => (Except.error ⟨some 503, none, none⟩ : Except JsError Unit)) 1
        = Except.error ⟨some 503, none, none⟩) ∧
    isFatalError ⟨some 503, none, none⟩ = false ∧
    (0 : ℚ) ≤ (fun _ : Nat => (1 : ℚ) / 2) 1 ∧ ((1 : ℚ) / 2 < 1) ∧
    ((is503Error ⟨some 503, none, none⟩ = true →
      ∃ rest, (retryGo (fun _ : Nat => (Except.error ⟨some 503, none, none⟩ : Except JsError Unit))
          (fun _ => (1 : ℚ) / 2) 3 10 1 3).2.2 =
          ((10 : ℚ) * 2 ^ 1 + (1 : ℚ) / 2 * 2000) :: rest ∧
        (0 : ℚ) ≤ (1 : ℚ) / 2 * 2000 ∧ (1 : ℚ) / 2 * 2000 < 2000) ∧
    (is503Error ⟨some 503, none, none⟩ = false →
      ∃ rest, (retryGo (fun _ : Nat => (Except.error ⟨some 503, none, none⟩ : Except JsError Unit))
          (fun _ => (1 : ℚ) / 2) 3 10 1 3).2.2 =
          ((10 : ℚ) * 2 ^ (1 - 1) + (1 : ℚ) / 2 * 1000) :: rest ∧
        (0 : ℚ) ≤ (1 : ℚ) / 2 * 1000 ∧ (1 : ℚ) / 2 * 1000 < 1000)) :=
  ⟨rfl, rfl, by norm_num, by norm_num,
    retry_delay_formula (fun _ => Except.error ⟨some 503, none, none⟩)
      (fun _ => (1 : ℚ) / 2) 3 10 1 3 ⟨some 503, none, none⟩ rfl rfl
      (by decide) (by decide) (by decide) (by norm_num) (by norm_num)⟩

set_option maxRecDepth 8000 in
/-- C6 (counterexample): the topic "aws amazon maven" is not an exact
skillMatches key and contains both the alias "maven" of key "java" and the
strictly longer alias "amazon" of key "aws", yet the keyword scan resolves to
"java", not "aws" — because the scan records for "aws" its first matching
alias "aws" (length 3), not the longer "amazon". -/
theorem keyword_scan_counterexample :
    listLookup "aws amazon maven" skillMatches = none ∧
    ("java", ["java", "spring", "jvm", "maven", "gradle"]) ∈ skillMatches ∧
    ("aws", ["aws", "amazon", "cloud", "lambda"]) ∈ skillMatches ∧
    jsIncludes "aws amazon maven" "maven" = true ∧
    jsIncludes "aws amazon maven" "amazon" = true ∧
    ("maven" : String).length < ("amazon" : String).length ∧
    (sortByLenDesc (keywordMatches "aws amazon maven")).head?.map Prod.fst = some "java" ∧
    (sortByLenDesc (keywordMatches "aws amazon maven")).head?.map Prod.fst ≠ some "aws" ∧
    getFallbackQuiz "aws amazon maven" (fun l => l) = javaQuiz := by decide

/-- C6 (amended): the keyword scan records, for each canonical key, the first
alias of its keyword list contained in the topic, and selection takes a match
whose recorded alias is of maximal length: the alias of every recorded match is no
longer than the alias of the selected head match.  (A longer alias of key B
wins only when it is the first alias of B to match.) -/
theorem keyword_scan_longest (t k kw : String) (h : (k, kw) ∈ keywordMatches t) :
    ∃ best, (sortByLenDesc (keywordMatches t)).head? = some best ∧
      kw.length ≤ best.2.length :=
  sortByLenDesc_max (keywordMatches t) (k, kw) h

set_option maxRecDepth 8000 in
/-- C6 witness: the maximality statement instantiated at the recorded match
("java", "maven") of the topic "aws amazon maven". -/
theorem keyword_scan_longest_witness :
    ("java", "maven") ∈ keywordMatches "aws amazon maven" ∧
    ∃ best, (sortByLenDesc (keywordMatches "aws amazon maven")).head? = some best ∧
      ("maven" : String).length ≤ best.2.length :=
  ⟨by decide, keyword_scan_longest "aws amazon maven" "java" "maven" (by decide)⟩

set_option maxRecDepth 4000 in
/-- C7 (counterexample): "typescript" is a recognized canonical key of the
skillMatches table, but it has no precomputed template content of its own in
fallbackQuizzes — the exact-key branch returns the javascript template set
instead of typescript content. -/
theorem exact_key_counterexample :
    (listLookup "typescript" skillMatches).isSome = true ∧
    listLookup "typescript" fallbackQuizzes = none ∧
    getFallbackQuiz "typescript" (fun l => l) = javascriptQuiz := by decide

/-- C7 (amended): for every topic whose lowercased form is a key of the
skillMatches table, getFallbackQuiz returns immediately from the exact-key
branch: the own quiz of the key from fallbackQuizzes when it has one, and the
javascript quiz otherwise; in particular selecting "java" returns the
canonical java template set. -/
theorem exact_key_selection :
    (∀ t sh, (listLookup (jsToLower t) skillMatches).isSome = true →
      getFallbackQuiz t sh = (listLookup (jsToLower t) fallbackQuizzes).getD javascriptQuiz) ∧
    (∀ sh : List QuizQuestion → List QuizQuestion, getFallbackQuiz "java" sh = javaQuiz) := by
  constructor
  · intro t sh h
    unfold getFallbackQuiz
    cases h1 : listLookup (jsToLower t) skillMatches with
    | none => rw [h1] at h; simp at h
    | some v => rfl
  · intro sh
    rfl

/-- C7 witness: the exact-key branch taken at the topic "Java" (lowercasing to
the key "java"). -/
theorem exact_key_selection_witness :
    (listLookup (jsToLower "Java") skillMatches).isSome = true ∧
    getFallbackQuiz "Java" (fun l => l) =
      (listLookup (jsToLower "Java") fallbackQuizzes).getD javascriptQuiz ∧
    getFallbackQuiz "java" (fun l => l) = javaQuiz :=
  ⟨by decide, exact_key_selection.1 "Java" (fun l => l) (by decide),
    exact_key_selection.2 (fun l => l)⟩

/-- C8: domain classification scans the keyword lists in the fixed order
technical, creative, business, science (the general entry has no keywords)
and picks the first matching domain, defaulting to "general"; and a topic
matching no domain keyword list draws all its questions from the general
domain pool. -/
theorem domain_priority :
    (∀ t, detectDomain t =
      if ["code", "programming", "software", "development", "algorithm", "data", "system",
          "network", "security", "database"].any (fun kw => jsIncludes t kw) then "technical"
      else if ["design", "art", "music", "writing", "content", "creative", "visual",
          "media"].any (fun kw => jsIncludes t kw) then "creative"
      else if ["management", "marketing", "sales", "finance", "strategy", "leadership",
          "project", "business"].any (fun kw => jsIncludes t kw) then "business"
      else if ["research", "analysis", "experiment", "theory", "scientific", "study",
          "method"].any (fun kw => jsIncludes t kw) then "science"
      else "general") ∧
    (∀ t (sh : List QuizQuestion → List QuizQuestion),
      (∀ d ∈ domains, ∀ kw ∈ d.2, jsIncludes (jsToLower t) kw = false) →
      (∀ l : List QuizQuestion, List.Perm (sh l) l) →
      detectDomain (jsToLower t) = "general" ∧
        ∀ q ∈ generateRandomQuestions t sh, q ∈ generalTemplates t) := by
  constructor
  · intro t
    unfold detectDomain domains
    rw [find?_cons_eq, find?_cons_eq, find?_cons_eq, find?_cons_eq, find?_cons_eq,
      List.find?_nil]
    simp only [List.any_nil, Bool.false_eq_true, if_false]
    split_ifs <;> rfl
  · intro t sh hnone hsh
    have hdet : detectDomain (jsToLower t) = "general" := by
      unfold detectDomain
      have hfind : domains.find?
          (fun p => p.2.any fun keyword => jsIncludes (jsToLower t) keyword) = none := by
        rw [List.find?_eq_none]
        intro p hp
        simp only [List.any_eq_true, not_exists, not_and, Bool.not_eq_true]
        intro kw hkw
        exact hnone p hp kw hkw
      rw [hfind]
    refine ⟨hdet, fun q hq => ?_⟩
    have hsub := (generateRandomQuestions_sub t sh hsh).2 q hq
    rw [hdet] at hsub
    have hgen : listLookup "general" (questionTemplates t) = some (generalTemplates t) := rfl
    rw [hgen] at hsub
    simpa using hsub

/-- C8 witness: the classification and the general-pool membership at the
topic "horticulture", which contains no domain keyword. -/
theorem domain_priority_witness :
    (∀ d ∈ domains, ∀ kw ∈ d.2, jsIncludes (jsToLower "horticulture") kw = false) ∧
    (detectDomain (jsToLower "horticulture") = "general" ∧
      ∀ q ∈ generateRandomQuestions "horticulture" (fun l => l),
        q ∈ generalTemplates "horticulture") :=
  ⟨by decide,
    domain_priority.2 "horticulture" (fun l => l) (by decide) (fun l => List.Perm.refl l)⟩

/-- C2 (counterexample): a failing remote call makes generateRoadmap of
geminiService rethrow the error to its caller (there is no roadmap fallback
on this path), and the server-side generateRoadmap likewise wraps and
rethrows — contrary to the claim that the roadmap operation returns a
fallback result instead of propagating. -/
theorem roadmap_failure_counterexample :
    generateRoadmap (some "key", none) (Except.error ⟨some 503, none, none⟩) =
      Except.error ⟨some 503, none, none⟩ ∧
    serverGenerateRoadmap (Except.error ⟨none, some "fetch failed", none⟩) =
      Except.error ⟨none, some "Failed to generate roadmap: fetch failed", none⟩ := by
  decide

/-- C2 (amended): when the remote path fails, generateQuiz answers with
getFallbackQuiz, suggestSkills with the filtered default list,
suggestSkillsDirect with its fixed list and generateRoadmapDirect with the
static roadmap; analyzeMatch answers with the fixed neutral score-50 result
with empty common interests; but the geminiService generateRoadmap (and the
server-side roadmap path) propagates the error instead of falling back. -/
theorem remote_failure_fallback :
    (∀ env remote (rand : Nat → ℚ) skill (sh : List QuizQuestion → List QuizQuestion)
        (e : JsError),
      (retryWithBackoff (generateQuizInternal env remote) rand 3 1000).1 = Except.error e →
      generateQuiz env remote rand skill sh = getFallbackQuiz skill sh) ∧
    (∀ env skills goals (e : JsError), getAIClient env = Except.ok () →
      suggestSkills env (Except.error e) skills goals =
        Except.ok (geminiDefaultSkills.filter fun s =>
          !(skills.contains s) && !(goals.contains s))) ∧
    (∀ e : JsError, suggestSkillsDirect (Except.error e) = mistralDefaultSkills) ∧
    (∀ (e : JsError) skill, generateRoadmapDirect (Except.error e) skill = fallbackRoadmap skill) ∧
    (∀ env (e : JsError), getAIClient env = Except.ok () →
      analyzeMatch env (Except.error e) = Except.ok ⟨50, "AI analysis unavailable.", []⟩) ∧
    (∀ env (e : JsError), getAIClient env = Except.ok () →
      generateRoadmap env (Except.error e) = Except.error e) := by
  refine ⟨?_, ?_, ?_, ?_, ?_, ?_⟩
  · intro env remote rand skill sh e h
    unfold generateQuiz
    rw [h]
  · intro env skills goals e h
    unfold suggestSkills
    rw [h]
  · intro e
    rfl
  · intro e skill
    rfl
  · intro env e h
    unfold analyzeMatch
    rw [h]
  · intro env e h
    unfold generateRoadmap
    rw [h]

/-- C2 witness: the fallback behaviors at a concrete 503 failure, with the
environment holding a key. -/
theorem remote_failure_fallback_witness :
    ((retryWithBackoff
        (generateQuizInternal (some "k", none)
          (fun _ => Except.error ⟨some 503, none, none⟩))
        (fun _ => 0) 3 1000).1 = Except.error ⟨some 503, none, none⟩) ∧
    getAIClient (some "k", none) = Except.ok () ∧
    generateQuiz (some "k", none) (fun _ => Except.error ⟨some 503, none, none⟩)
      (fun _ => 0) "java" (fun l => l) = getFallbackQuiz "java" (fun l => l) ∧
    suggestSkills (some "k", none) (Except.error ⟨some 503, none, none⟩) ["DevOps"] [] =
      Except.ok (geminiDefaultSkills.filter fun s =>
        !((["DevOps"] : List String).contains s) && !(([] : List String).contains s)) ∧
    suggestSkillsDirect (Except.error ⟨some 503, none, none⟩) = mistralDefaultSkills ∧
    generateRoadmapDirect (Except.error ⟨some 503, none, none⟩) "java" = fallbackRoadmap "java" ∧
    analyzeMatch (some "k", none) (Except.error ⟨some 503, none, none⟩) =
      Except.ok ⟨50, "AI analysis unavailable.", []⟩ :=
  ⟨by decide, by decide,
    remote_failure_fallback.1 (some "k", none) (fun _ => Except.error ⟨some 503, none, none⟩)
      (fun _ => 0) "java" (fun l => l) ⟨some 503, none, none⟩ (by decide),
    remote_failure_fallback.2.1 (some "k", none) ["DevOps"] [] ⟨some 503, none, none⟩ (by decide),
    remote_failure_fallback.2.2.1 ⟨some 503, none, none⟩,
    remote_failure_fallback.2.2.2.1 ⟨some 503, none, none⟩ "java",
    remote_failure_fallback.2.2.2.2.1 (some "k", none) ⟨some 503, none, none⟩ (by decide)⟩

/-- C9 (counterexample): shape-violating decoded responses are returned raw to
the caller on the frontend paths: suggestSkillsDirect passes a 3-element
skills array through unchanged (no exactly-5 check), and generateQuiz returns
a decoded quiz with 1 question whose correctAnswerIndex 7 is out of range for
its 2 options (no validation at all). -/
theorem shape_validation_counterexample :
    suggestSkillsDirect (Except.ok (some ["Rust", "Go", "Zig"])) = ["Rust", "Go", "Zig"] ∧
    (["Rust", "Go", "Zig"] : List String).length ≠ 5 ∧
    generateQuiz (some "k", none)
      (fun _ => Except.ok (some [⟨"q", none, ["a", "b"], 7⟩])) (fun _ => 0) "java"
      (fun l => l) = [⟨"q", none, ["a", "b"], 7⟩] ∧
    ¬((7 : Int) < ((["a", "b"] : List String).length : Int)) := by
  decide

/-- C9 (amended): the server-side module (src/unnamed/part_000) does validate
before returning — suggestSkills only returns skill lists of length exactly
5, and generateRoadmap only returns roadmaps of exactly 6 steps whose title,
description and duration are non-empty strings and whose resources have
exactly 3 entries; the frontend direct services return decoded arrays without
these shape checks. -/
theorem server_validation :
    (∀ remote skills, serverSuggestSkills remote = Except.ok skills → skills.length = 5) ∧
    (∀ remote roadmap, serverGenerateRoadmap remote = Except.ok roadmap →
      roadmap.length = 6 ∧ ∀ s ∈ roadmap,
        (∃ x, s.title = some x ∧ x ≠ "") ∧ (∃ x, s.description = some x ∧ x ≠ "") ∧
        (∃ x, s.duration = some x ∧ x ≠ "") ∧
        (∃ rs, s.resources = some rs ∧ rs.length = 3)) := by
  constructor
  · intro remote skills h
    match remote with
    | .error e => simp [serverSuggestSkills] at h
    | .ok none => simp [serverSuggestSkills] at h
    | .ok (some l) =>
      rw [serverSuggestSkills] at h
      by_cases hl : l.length = 5
      · rw [if_neg (by omega)] at h
        cases h
        exact hl
      · rw [if_pos hl] at h
        simp at h
  · intro remote roadmap h
    match remote with
    | .error e => simp [serverGenerateRoadmap] at h
    | .ok none => simp [serverGenerateRoadmap] at h
    | .ok (some l) =>
      rw [serverGenerateRoadmap] at h
      by_cases hl : l.length = 6
      · rw [if_neg (by omega)] at h
        cases hstep : firstStepError 0 l with
        | some m => rw [hstep] at h; simp at h
        | none =>
          rw [hstep] at h
          have hlr : l = roadmap := by injection h
          subst hlr
          refine ⟨hl, fun s hs => ?_⟩
          obtain ⟨j, hj⟩ := firstStepError_none l 0 hstep s hs
          exact stepError_none j s hj
      · rw [if_pos hl] at h
        simp at h

/-- C9 witness: the server validation applied to concrete well-shaped decoded
responses. -/
theorem server_validation_witness :
    serverSuggestSkills (Except.ok (some ["a", "b", "c", "d", "e"])) =
      Except.ok ["a", "b", "c", "d", "e"] ∧
    (["a", "b", "c", "d", "e"] : List String).length = 5 ∧
    serverGenerateRoadmap (Except.ok (some
      [⟨some 1, some "t1", some "d1", some "1 week", some ["r1", "r2", "r3"]⟩,
       ⟨some 2, some "t2", some "d2", some "1 week", some ["r1", "r2", "r3"]⟩,
       ⟨some 3, some "t3", some "d3", some "1 week", some ["r1", "r2", "r3"]⟩,
       ⟨some 4, some "t4", some "d4", some "1 week", some ["r1", "r2", "r3"]⟩,
       ⟨some 5, some "t5", some "d5", some "1 week", some ["r1", "r2", "r3"]⟩,
       ⟨some 6, some "t6", some "d6", some "1 week", some ["r1", "r2", "r3"]⟩])) =
      Except.ok
      [⟨some 1, some "t1", some "d1", some "1 week", some ["r1", "r2", "r3"]⟩,
       ⟨some 2, some "t2", some "d2", some "1 week", some ["r1", "r2", "r3"]⟩,
       ⟨some 3, some "t3", some "d3", some "1 week", some ["r1", "r2", "r3"]⟩,
       ⟨some 4, some "t4", some "d4", some "1 week", some ["r1", "r2", "r3"]⟩,
       ⟨some 5, some "t5", some "d5", some "1 week", some ["r1", "r2", "r3"]⟩,
       ⟨some 6, some "t6", some "d6", some "1 week", some ["r1", "r2", "r3"]⟩] ∧
    ([⟨some 1, some "t1", some "d1", some "1 week", some ["r1", "r2", "r3"]⟩,
      ⟨some 2, some "t2", some "d2", some "1 week", some ["r1", "r2", "r3"]⟩,
      ⟨some 3, some "t3", some "d3", some "1 week", some ["r1", "r2", "r3"]⟩,
      ⟨some 4, some "t4", some "d4", some "1 week", some ["r1", "r2", "r3"]⟩,
      ⟨some 5, some "t5", some "d5", some "1 week", some ["r1", "r2", "r3"]⟩,
      ⟨some 6, some "t6", some "d6", some "1 week", some ["r1", "r2", "r3"]⟩] :
        List RawStep).length = 6 :=
  ⟨by decide, by decide, by decide,
    (server_validation.2 (Except.ok (some
      [⟨some 1, some "t1", some "d1", some "1 week", some ["r1", "r2", "r3"]⟩,
       ⟨some 2, some "t2", some "d2", some "1 week", some ["r1", "r2", "r3"]⟩,
       ⟨some 3, some "t3", some "d3", some "1 week", some ["r1", "r2", "r3"]⟩,
       ⟨some 4, some "t4", some "d4", some "1 week", some ["r1", "r2", "r3"]⟩,
       ⟨some 5, some "t5", some "d5", some "1 week", some ["r1", "r2", "r3"]⟩,
       ⟨some 6, some "t6", some "d6", some "1 week", some ["r1", "r2", "r3"]⟩])) _
      (by decide)).1⟩

/-- C10: with neither API_KEY nor GEMINI_API_KEY set, analyzeMatch throws the
"API Key not found" error to its caller (the client is constructed before the
try block) rather than returning the neutral score-50 result, while
generateQuiz still returns the fallback quiz, whatever the remote behavior,
random draws and shuffle. -/
theorem missing_api_key_behavior (skill : String)
    (remoteM : Except JsError (Option MatchResult))
    (remoteQ : Nat → Except JsError (Option (List QuizQuestion)))
    (rand : Nat → ℚ) (sh : List QuizQuestion → List QuizQuestion) :
    analyzeMatch (none, none) remoteM = Except.error apiKeyError ∧
    generateQuiz (none, none) remoteQ rand skill sh = getFallbackQuiz skill sh := by
  constructor
  · rfl
  · have hres := retryGo_all_error (generateQuizInternal (none, none) remoteQ) rand 3 1000
      (fun _ => apiKeyError) (fun _ => rfl) (fun _ => rfl) 3 1 (by decide) (by decide)
    unfold generateQuiz
    rw [show retryWithBackoff (generateQuizInternal (none, none) remoteQ) rand 3 1000 =
      retryGo (generateQuizInternal (none, none) remoteQ) rand 3 1000 1 3 from rfl, hres.1]
